import Mathlib

/-!
Shallow embedding of the core of the `2025_Scopus_db_builder` repository:

* the reference-string parser `_parse_single_reference`
  (src/scopus_db/database/creator.py, lines 1381-1594),
* the CrossRef client `CrossRefClient` (src/scopus_db/crossref/crossref_client.py):
  `_make_request`, the three search operations, and the confidence scorer
  `calculate_match_confidence` / `validate_publication_match`,
* the DOI-recovery pipeline of `ScopusDataQualityFilter`
  (src/scopus_db/data_quality_filter.py): `_attempt_crossref_recovery`, the three
  phase functions, `should_exclude_record` and the row loop of `filter_csv_data`.

Modelling conventions:

* Python strings are Lean `String`s; character-level operations are implemented on
  `List Char` with structural recursion so that all definitions evaluate by kernel
  reduction.
* Python `dict` CSV rows are association lists (`Row`); `row.get(k, '')` is `rowGet`,
  `row[k] = v` is `rowSet` (replace if present, append otherwise).
* Network effects are made explicit: a `CrossRefClient` is an oracle mapping each
  HTTP request (and attempt number) to an outcome, and every function that performs
  requests also returns the list of requests it issued.
* Python exceptions raised by `_make_request` are `Except` values; the `try/except`
  blocks of the recovery phases become `match`es on those values.
* Python floats are modelled as exact rationals.  Every score constant in the source
  is a multiple of 0.01, so scores are carried as integer hundredths
  (`confidence_centi`); similarity ratios, which are only ever compared against
  constants, are carried as exact fractions and compared by cross-multiplication.
  The rational value of a score is exposed as `confidence_score`.
* Audit-trail strings (`confidence_factors`, `validation_details` texts) and
  process-local statistics counters are not modelled: per the source they only feed
  reports, never decisions.
-/

/-! ## Character-list utilities (Python string primitives) -/

/-- Python `str.strip()` on the left: drop leading whitespace. -/
def ltrimL (cs : List Char) : List Char := cs.dropWhile Char.isWhitespace

/-- Python `str.strip()`: drop leading and trailing whitespace. -/
def trimL (cs : List Char) : List Char :=
  ((cs.dropWhile Char.isWhitespace).reverse.dropWhile Char.isWhitespace).reverse

/-- Python `str.rstrip(',')`: drop trailing commas. -/
def rstripCommaL (cs : List Char) : List Char :=
  (cs.reverse.dropWhile (fun c => c = ',')).reverse

/-- Python `str.strip('-')`: drop leading and trailing dashes. -/
def stripDashL (cs : List Char) : List Char :=
  ((cs.dropWhile (fun c => c = '-')).reverse.dropWhile (fun c => c = '-')).reverse

/-- Python `str.lower()` (ASCII, which is all the source compares). -/
def lowerL (cs : List Char) : List Char := cs.map Char.toLower

/-- Python `str.isdigit()`: non-empty and all digits. -/
def isdigitL (cs : List Char) : Bool := !cs.isEmpty && cs.all Char.isDigit

/-- Whether `pat` occurs as a contiguous substring (Python `pat in s`). -/
def containsSub (pat : List Char) : List Char → Bool
  | [] => pat.isPrefixOf []
  | c :: rest => pat.isPrefixOf (c :: rest) || containsSub pat rest

/-- Split on a separator character, keeping empty chunks (Python `str.split(sep)`). -/
def splitOnChar (sep : Char) : List Char → List (List Char)
  | [] => [[]]
  | c :: rest =>
    if c = sep then [] :: splitOnChar sep rest
    else
      match splitOnChar sep rest with
      | [] => [[c]]
      | h :: t => (c :: h) :: t

/-- Split on a character predicate, keeping empty chunks. -/
def splitOnPred (p : Char → Bool) : List Char → List (List Char)
  | [] => [[]]
  | c :: rest =>
    if p c then [] :: splitOnPred p rest
    else
      match splitOnPred p rest with
      | [] => [[c]]
      | h :: t => (c :: h) :: t

/-- Python `str.split()` with no argument: split on whitespace runs, dropping empties. -/
def wordsOf (cs : List Char) : List (List Char) :=
  (splitOnPred Char.isWhitespace cs).filter (fun w => !w.isEmpty)

/-- Python `sep.join(chunks)`. -/
def joinWith (sep : List Char) : List (List Char) → List Char
  | [] => []
  | [w] => w
  | w :: ws' => w ++ sep ++ joinWith sep ws'

/-- Python `' '.join(s.split())`: whitespace normalization used by the parser cleanup. -/
def normalizeWsL (cs : List Char) : List Char := joinWith [' '] (wordsOf cs)

/-! ## String wrappers -/

/-- Python `str.strip()`. -/
def trimS (s : String) : String := String.mk (trimL s.toList)

/-- Python `str.lower()`. -/
def lowerS (s : String) : String := String.mk (lowerL s.toList)

/-- Python `str.isdigit()`. -/
def isdigitS (s : String) : Bool := isdigitL s.toList

/-- Python `pat in s`. -/
def containsSubS (pat s : String) : Bool := containsSub pat.toList s.toList

/-- Python `str.strip('-')`. -/
def stripDashS (s : String) : String := String.mk (stripDashL s.toList)

/-- Python `' '.join(s.split())`. -/
def normalizeWsS (s : String) : String := String.mk (normalizeWsL s.toList)

/-- `s` contains two adjacent space characters (an internal run of more than one space). -/
def hasDoubleSpace : List Char → Bool
  | a :: b :: t => (a = ' ' && b = ' ') || hasDoubleSpace (b :: t)
  | _ => false

/-- The field invariant claimed by the spec for parsed-reference strings:
non-empty and with no internal run of more than one space. -/
def NormalizedField (s : String) : Prop := s ≠ "" ∧ hasDoubleSpace s.toList = false

/-! ## CSV rows as association lists -/

/-- A CSV row: ordered key/value pairs, as read by Python's `csv.DictReader`. -/
abbrev Row : Type := List (String × String)

/-- Python `row.get(k, '')`. -/
def rowGet : Row → String → String
  | [], _ => ""
  | (k', v) :: rest, k => if k' = k then v else rowGet rest k

/-- Python `row[k] = v` on a dict: replace the (unique) entry if the key is
present, else append. -/
def rowSet : Row → String → String → Row
  | [], k, v => [(k, v)]
  | (k', v') :: rest, k, v =>
    if k' = k then (k, v) :: rest else (k', v') :: rowSet rest k v

/-! ## Reference parser (`_parse_single_reference`, creator.py lines 1381-1594)

`Option` is the exception monad of the embedding: `none` models a Python exception
(IndexError from a list subscript).  Every subscript `parts[i]` of the source is a
`[i]?` bind, so totality of the parser is exactly the statement that the function
never returns `none`. -/

/-- The structured parse result built by `_parse_single_reference` (`year` is a
Python `int`, the string fields are `str` or `None`). -/
structure RefResult where
  authors : Option String := none
  title : Option String := none
  journal : Option String := none
  volume : Option String := none
  issue : Option String := none
  pages : Option String := none
  year : Option Nat := none
deriving DecidableEq

/-- The all-`None` result dict initialized at the top of `_parse_single_reference`. -/
def emptyRef : RefResult := {}

/-- Numeric value of four digit characters (Python `int` of the matched group). -/
def digits4 (c1 c2 c3 c4 : Char) : Nat :=
  (c1.toNat - 48) * 1000 + (c2.toNat - 48) * 100 + (c3.toNat - 48) * 10 + (c4.toNat - 48)

/-- Whether the regex `\((\d{4})\)(?:\s*$)` matches at the head of the list:
a parenthesized 4-digit group followed only by whitespace. -/
def parenMatchHere (cs : List Char) : Bool :=
  match cs with
  | c0 :: c1 :: c2 :: c3 :: c4 :: c5 :: rest =>
    c0 = '(' && c1.isDigit && c2.isDigit && c3.isDigit && c4.isDigit && c5 = ')' &&
      rest.all Char.isWhitespace
  | _ => false

/-- The year digits at a position where `parenMatchHere` holds. -/
def parenDigitsHere (cs : List Char) : Nat :=
  match cs with
  | _ :: c1 :: c2 :: c3 :: c4 :: _ => digits4 c1 c2 c3 c4
  | _ => 0

/-- `re.search(r'\((\d{4})\)(?:\s*$)', reference)`: scan left to right for the first
(= only possible) match; return the year and the prefix before the match
(`acc` holds the scanned prefix reversed). -/
def parenYearGo (acc : List Char) : List Char → Option (Nat × List Char)
  | [] => none
  | c :: rest =>
    if parenMatchHere (c :: rest) then some (parenDigitsHere (c :: rest), acc.reverse)
    else parenYearGo (c :: acc) rest

/-- Python `\w` word character (ASCII, as in all inputs the source handles). -/
def isWordChar (c : Char) : Bool := c.isAlphanum || c = '_'

/-- `\b` holds between the previous character (none at string start) and a digit. -/
def leftBoundOk : Option Char → Bool
  | none => true
  | some p => !isWordChar p

/-- `\b` holds between the last matched digit and what follows (none at end). -/
def rightBoundOk (rest : List Char) : Bool :=
  match rest.head? with
  | none => true
  | some c => !isWordChar c

/-- `re.search(r'\b(19|20)\d{2}\b', reference)`: first word-bounded 4-digit token
starting with 19 or 20; `prev` is the character before the scan position. -/
def bareYearGo (prev : Option Char) : List Char → Option Nat
  | c1 :: c2 :: c3 :: c4 :: rest =>
    if leftBoundOk prev && ((c1 = '1' && c2 = '9') || (c1 = '2' && c2 = '0')) &&
        c3.isDigit && c4.isDigit && rightBoundOk rest
    then some (digits4 c1 c2 c3 c4)
    else bareYearGo (some c1) (c2 :: c3 :: c4 :: rest)
  | _ => none

/-- Year extraction (creator.py lines 1420-1430): a parenthesized year at the end is
extracted and stripped (plus trailing comma); otherwise a bare `(19|20)\d\d` token is
extracted without altering the working string. -/
def extract_year (r1 : List Char) : Option Nat × List Char :=
  match parenYearGo [] r1 with
  | some (y, pre) => (some y, trimL (rstripCommaL (trimL pre)))
  | none => (bareYearGo none r1, r1)

/-- The literal `'[WWW Document]'` marker. -/
def wwwMarker : List Char := "[WWW Document]".toList

/-- Python `reference.replace('[WWW Document]', '')`: delete every occurrence. -/
def removeWWW : List Char → List Char
  | '[' :: 'W' :: 'W' :: 'W' :: ' ' :: 'D' :: 'o' :: 'c' :: 'u' :: 'm' :: 'e' :: 'n' :: 't' :: ']' :: rest =>
    removeWWW rest
  | c :: rest => c :: removeWWW rest
  | [] => []

/-- `re.sub(r'pp\.\s*', '', part, flags=re.IGNORECASE)` as a left-to-right scan;
the `Bool` state records that a match just ended and `\s*` is still consuming. -/
def removePpGo : Bool → List Char → List Char
  | _, [] => []
  | b, p1 :: p2 :: '.' :: rest2 =>
    if b && p1.isWhitespace then removePpGo b (p2 :: '.' :: rest2)
    else if p1.toLower = 'p' && p2.toLower = 'p' then removePpGo true rest2
    else p1 :: removePpGo false (p2 :: '.' :: rest2)
  | b, c :: rest =>
    if b && c.isWhitespace then removePpGo b rest
    else c :: removePpGo false rest

/-- `re.sub(r'pp\.\s*', '', part, flags=re.IGNORECASE)`. -/
def removePp (cs : List Char) : List Char := removePpGo false cs

/-- Full-match of `\d+-\d+`: a digit run, a dash, a digit run. -/
def isRangeL (cs : List Char) : Bool :=
  match splitOnChar '-' cs with
  | [a, b] => isdigitL a && isdigitL b
  | _ => false

/-- `re.match(r'^pp\.|^\d+-\d+$', part)` (case-sensitive, as in the source). -/
def matchPpOrRange (cs : List Char) : Bool :=
  "pp.".toList.isPrefixOf cs || isRangeL cs

/-- `re.match(r'^pp\.|^\d+$|^\d+-\d+$', part)`. -/
def matchPpNumOrRange (cs : List Char) : Bool :=
  "pp.".toList.isPrefixOf cs || isdigitL cs || isRangeL cs

/-- Word tokens of a part, lowercased: the maximal `\w+` runs, which is what the
word-boundary patterns `\bX\b` of `journal_patterns` match against. -/
def wordTokensLower (cs : List Char) : List String :=
  ((splitOnPred (fun c => !isWordChar c) (lowerL cs)).filter (fun w => !w.isEmpty)).map String.mk

/-- `re.search(r'\bX\b.*\bY\b', part)` over the token list: a token `x` with a token
`y` somewhere after it. -/
def tokenPairInOrder (x y : String) : List String → Bool
  | [] => false
  | t :: ts => if t = x then ts.contains y else tokenPairInOrder x y ts

/-- Whether any of the `journal_patterns` regexes (creator.py lines 1469-1482)
matches the part under `re.search(..., re.IGNORECASE)`. -/
def journalPatternHit (cs : List Char) : Bool :=
  let toks := wordTokensLower cs
  let low := lowerL cs
  toks.contains "j" || toks.contains "proc" ||
    toks.contains "nature" || toks.contains "science" ||
    toks.contains "ieee" || toks.contains "acm" ||
    toks.contains "ann" || toks.contains "arch" ||
    tokenPairInOrder "br" "j" toks || tokenPairInOrder "am" "j" toks ||
    tokenPairInOrder "int" "j" toks || tokenPairInOrder "eur" "j" toks ||
    tokenPairInOrder "sci" "rep" toks ||
    containsSub "surgery".toList low || containsSub "medicine".toList low ||
    containsSub "engineering".toList low || containsSub "robotics".toList low ||
    containsSub "manufacturing".toList low ||
    containsSub "transaction".toList low || containsSub "review".toList low ||
    containsSub "letter".toList low || containsSub "hno".toList low ||
    containsSub "bmc".toList low

/-- The pattern scan for the journal position (creator.py lines 1484-1500):
first index from 1 on whose part is not numeric/page-shaped and hits a pattern. -/
def patternScan (parts : List (List Char)) : Option Nat :=
  (List.range' 1 (parts.length - 1)).find? (fun i =>
    let part := parts.getD i []
    !(isdigitL part || matchPpOrRange part) && journalPatternHit part)

/-- The positional fallback (creator.py lines 1502-1516): first index in 2..min(len,5)
whose part is long enough, non-numeric, not page-shaped, and short or multi-word or
journal-flavoured. -/
def positionalScan (parts : List (List Char)) : Option Nat :=
  (List.range' 2 (min parts.length 5 - 2)).find? (fun i =>
    let part := trimL (parts.getD i [])
    part.length > 1 && !isdigitL part && !matchPpNumOrRange part &&
      (part.length ≤ 15 || (wordsOf part).length ≥ 2 ||
        containsSub "journal".toList (lowerL part) || containsSub "proc".toList (lowerL part) ||
        containsSub "lett".toList (lowerL part) || containsSub "rev".toList (lowerL part)))

/-- Python truthiness of a `str`-or-`None` field (`if result[key]:`). -/
def optTruthy : Option String → Bool
  | some s => s ≠ ""
  | none => false

/-- Loop body over the parts after the journal (creator.py lines 1528-1544). -/
def scanTailJournal (st : Option String × Option String × Option String) (part : List Char) :
    Option String × Option String × Option String :=
  let (vol, iss, pg) := st
  if containsSub "pp.".toList (lowerL part) then
    (vol, iss, some (String.mk (trimL (removePp part))))
  else if isRangeL part && !optTruthy pg then (vol, iss, some (String.mk part))
  else if isdigitL part && !optTruthy vol then (some (String.mk part), iss, pg)
  else if isdigitL part && optTruthy vol && !optTruthy iss then (vol, some (String.mk part), pg)
  else (vol, iss, pg)

/-- Loop body over `parts[3:]` in the fallback branch (creator.py lines 1565-1572). -/
def scanTailFallback (st : Option String × Option String × Option String) (part : List Char) :
    Option String × Option String × Option String :=
  let (vol, iss, pg) := st
  if isdigitL part && !optTruthy vol then (some (String.mk part), iss, pg)
  else if isdigitL part && optTruthy vol && !optTruthy iss then (vol, some (String.mk part), pg)
  else if containsSub "pp.".toList (lowerL part) || isRangeL part then
    (vol, iss, some (String.mk (trimL (removePp part))))
  else (vol, iss, pg)

/-- Fallback parsing for books and other formats (creator.py lines 1546-1585),
reached when no journal index ≥ 2 was resolved. -/
def fallbackBranch (parts : List (List Char)) (yr : Option Nat) : Option RefResult :=
  if parts.length ≥ 3 then do
    let a ← parts[0]?
    let t ← parts[1]?
    let third ← parts[2]?
    let jv : String × Option String :=
      if isdigitL third || third.length < 3 ||
          containsSub "press".toList (lowerL third) ||
          containsSub "publisher".toList (lowerL third) ||
          containsSub "books".toList (lowerL third) ||
          containsSub "edition".toList (lowerL third) then
        ("Book/Monograph", if isdigitL third then some (String.mk third) else none)
      else (String.mk third, none)
    let (vol, iss, pg) := (parts.drop 3).foldl scanTailFallback (jv.2, none, none)
    some { authors := some (String.mk a), title := some (String.mk t), journal := some jv.1,
           volume := vol, issue := iss, pages := pg, year := yr }
  else if parts.length = 2 then do
    let a ← parts[0]?
    let t ← parts[1]?
    some { authors := some (String.mk a), title := some (String.mk t),
           journal := some "Book/Monograph", year := yr }
  else do
    let p0 ← parts[0]?
    if p0.length > 10 then some { title := some (String.mk p0), year := yr }
    else some { authors := some (String.mk p0), year := yr }

/-- The standards-document branch (creator.py lines 1458-1466). -/
def standardsBranch (parts : List (List Char)) (yr : Option Nat) : Option RefResult := do
  let t ← if parts.length > 1 then some (String.mk (joinWith [',', ' '] parts.dropLast))
          else (parts[0]?).map String.mk
  let vol ← if parts.length ≥ 2 then
              match parts.getLast? with
              | some lastP => some (if isdigitL lastP then some (String.mk lastP) else none)
              | none => none
            else some none
  some { title := some t, journal := some "Standard", volume := vol, year := yr }

/-- The journal-position branch (creator.py lines 1519-1544), for a resolved index
`j ≥ 2`: authors, comma-joined title, journal, then volume/issue/pages scan. -/
def journalBranch (parts : List (List Char)) (j : Nat) (yr : Option Nat) : Option RefResult := do
  let a ← parts[0]?
  let jp ← parts[j]?
  let t := joinWith [',', ' '] ((parts.drop 1).take (j - 1))
  let (vol, iss, pg) := (parts.drop (j + 1)).foldl scanTailJournal (none, none, none)
  some { authors := some (String.mk a), title := some (String.mk t),
         journal := some (String.mk jp), volume := vol, issue := iss, pages := pg, year := yr }

/-- Final normalization of one field (creator.py lines 1587-1592): a populated
non-empty string is whitespace-collapsed, and nullified if that leaves it empty;
`None` and the empty string pass through unchanged. -/
def cleanField : Option String → Option String
  | none => none
  | some v =>
    if v ≠ "" then
      let n := normalizeWsS v
      if n = "" then none else some n
    else some v

/-- The final cleanup loop applied to the result of the comma-decomposition path
(`year` is an `int` and is skipped by the `isinstance` check). -/
def cleanupResult (r : RefResult) : RefResult :=
  { authors := cleanField r.authors, title := cleanField r.title,
    journal := cleanField r.journal, volume := cleanField r.volume,
    issue := cleanField r.issue, pages := cleanField r.pages, year := r.year }

/-- Keywords of the no-comma branch (creator.py line 1443). -/
def noCommaKeywords : List String := ["standard", "specification", "guideline", "principles", "terminology"]

/-- Keywords of the standards detection over comma parts (creator.py lines 1459-1460). -/
def standardsKeywords : List String := ["iso ", "astm ", "standard", "specification", "guideline"]

/-- The comma split of the working string (creator.py line 1451): split on commas,
strip each part, drop empties. -/
def split_ref_parts (r2 : List Char) : List (List Char) :=
  ((splitOnChar ',' r2).map trimL).filter (fun p => !p.isEmpty)

/-- The comma-delimited decomposition (creator.py lines 1450-1594): standards
detection, journal-position resolution (pattern scan, then positional fallback),
the fallback branch, and the final cleanup. -/
def comma_decomposition (r2 : List Char) (yr : Option Nat) : Option RefResult :=
  let parts := split_ref_parts r2
  if parts.length < 2 then some { title := some (String.mk r2), year := yr }
  else if standardsKeywords.any
      (fun k => containsSub k.toList (lowerL (joinWith [' '] parts))) then
    standardsBranch parts yr
  else
    let jIdx := (patternScan parts).orElse (fun _ => positionalScan parts)
    let res :=
      match jIdx with
      | some j => if j ≥ 2 then journalBranch parts j yr else fallbackBranch parts yr
      | none => fallbackBranch parts yr
    res.map cleanupResult

/-- `_parse_single_reference` (creator.py lines 1381-1594).  Returns `none` exactly
when the Python original would raise (it never does; that is claim C9). -/
def parse_single_reference (reference : String) : Option RefResult :=
  let rcs := reference.toList
  let rs := trimL rcs
  if rs.length < 3 then some emptyRef
  else if rs.length < 10 then
    -- very short references: bare year, or short title when not all digits
    if rs.length = 4 && rs.all Char.isDigit then
      some { year := some (rs.foldl (fun n c => n * 10 + (c.toNat - 48)) 0) }
    else if !isdigitL rs then some { title := some (String.mk rs) }
    else some emptyRef
  else
    -- truncated references starting with a comma are trimmed; otherwise the
    -- original (unstripped) string is kept as the working string
    let r1 := if rs.head? = some ',' then trimL (rs.drop 1) else rcs
    let yr2 := extract_year r1
    let r2 := yr2.2
    if containsSub wwwMarker r2 then
      let tp := trimL (rstripCommaL (trimL (removeWWW r2)))
      some { title := some (String.mk tp), journal := some "Web Document", year := yr2.1 }
    else if !r2.contains ',' then
      if noCommaKeywords.any (fun k => containsSub k.toList (lowerL r2)) then
        some { title := some (String.mk r2), journal := some "Standard/Document", year := yr2.1 }
      else if (wordsOf r2).length ≥ 3 then some { title := some (String.mk r2), year := yr2.1 }
      else some { year := yr2.1 }
    else comma_decomposition r2 yr2.1

/-! ## CrossRef work records and client (`crossref_client.py`)

A `Work` carries the fields of a CrossRef work record that the source reads.  A
real works-API record always carries its `DOI` (it is the primary key of the
endpoint), so `DOI` is modelled as a plain string and `extract_doi` returns it. -/

/-- One entry of a CrossRef `author` list (`family` / `given`, absent = `""`). -/
structure CrAuthor where
  family : String
  given : String
deriving DecidableEq

/-- A CrossRef work record, restricted to the fields the source reads. -/
structure Work where
  doi : String
  title : List String
  author : List CrAuthor
  published : List (List Nat)
  volume : String
  page : String
  page_first : String
  page_last : String
deriving DecidableEq

/-- `_extract_pages` (crossref_client.py lines 330-356). -/
def extract_pages (w : Work) : String :=
  if w.page ≠ "" then w.page
  else if w.page_first ≠ "" && w.page_last ≠ "" then w.page_first ++ "-" ++ w.page_last
  else if w.page_first ≠ "" then w.page_first
  else ""

/-- `extract_doi` (crossref_client.py lines 358-371). -/
def extract_doi (w : Work) : String := w.doi

/-- The HTTP requests the client can issue, carrying the parameters that determine
each request (query text, year filter, limit); the polite-pool boilerplate is
identical on every request and not modelled. -/
inductive Request where
  | pmid (pm : String)
  | journalSearch (query : String) (filterYear : Option String)
  | titleSearch (query : String) (author : Option String) (year : Option String) (rows : Nat)
deriving DecidableEq

/-- Outcome of one HTTP attempt: a parsed JSON body (`some items` when
`message.items` is present), or one of the failure modes `_make_request` handles. -/
inductive HttpOutcome where
  | success (body : Option (List Work))
  | httpError (code : Nat)
  | urlError
  | jsonError
  | otherError
deriving DecidableEq

/-- The exception type raised by `_make_request` for unhandled HTTP statuses. -/
inductive CrossRefAPIError where
  | httpError (code : Nat)
deriving DecidableEq

/-- A client is an oracle giving the outcome of the n-th attempt of each request;
the source performs exactly one attempt per call, so only attempt 0 is consumed. -/
structure CrossRefClient where
  http : Request → Nat → HttpOutcome

/-- `_make_request` (crossref_client.py lines 131-210): one HTTP attempt; 429 and
404 yield `None`, other HTTP errors raise `CrossRefAPIError`, transport/JSON/other
errors yield `None`.  The second component counts the attempts consumed (always 1:
the source has no retry loop). -/
def make_request (attempts : Nat → HttpOutcome) :
    Except CrossRefAPIError (Option (Option (List Work))) × Nat :=
  (match attempts 0 with
   | .success body => .ok (some body)
   | .httpError code =>
     if code = 429 then .ok none
     else if code = 404 then .ok none
     else .error (.httpError code)
   | .urlError => .ok none
   | .jsonError => .ok none
   | .otherError => .ok none, 1)

/-- `search_by_pmid` (crossref_client.py lines 212-236); also returns the list of
requests issued. -/
def search_by_pmid (c : CrossRefClient) (pmid : String) :
    Except CrossRefAPIError (Option Work) × List Request :=
  if trimS pmid = "" then (.ok none, [])
  else
    let req := Request.pmid (trimS pmid)
    match (make_request (c.http req)).1 with
    | .error e => (.error e, [req])
    | .ok none => (.ok none, [req])
    | .ok (some none) => (.ok none, [req])
    | .ok (some (some [])) => (.ok none, [req])
    | .ok (some (some (w :: _))) => (.ok (some w), [req])

/-- `search_by_journal_details` (crossref_client.py lines 238-288): query by journal
with an optional year filter; when pages are given, prefer the first of the first 5
items whose page field contains them, else the first item. -/
def search_by_journal_details (c : CrossRefClient) (journal : String)
    (volume issue pages year : Option String) :
    Except CrossRefAPIError (Option Work) × List Request :=
  if trimS journal = "" then (.ok none, [])
  else
    let fy := match year with
              | some y => if y = "" then none else some (trimS y)
              | none => none
    let req := Request.journalSearch (trimS journal) fy
    match (make_request (c.http req)).1 with
    | .error e => (.error e, [req])
    | .ok none => (.ok none, [req])
    | .ok (some none) => (.ok none, [req])
    | .ok (some (some [])) => (.ok none, [req])
    | .ok (some (some (w :: ws))) =>
      match pages with
      | some p =>
        if p ≠ "" then
          match ((w :: ws).take 5).find?
              (fun it => extract_pages it ≠ "" && containsSubS (trimS p) (extract_pages it)) with
          | some it => (.ok (some it), [req])
          | none => (.ok (some w), [req])
        else (.ok (some w), [req])
      | none => (.ok (some w), [req])

/-- `search_by_title` (crossref_client.py lines 290-328). -/
def search_by_title (c : CrossRefClient) (title : String)
    (author year : Option String) (limit : Nat) :
    Except CrossRefAPIError (List Work) × List Request :=
  if trimS title = "" then (.ok [], [])
  else
    let ap := match author with
              | some a => if a = "" then none else some (trimS a)
              | none => none
    let yp := match year with
              | some y => if y = "" then none else some (trimS y)
              | none => none
    let req := Request.titleSearch (trimS title) ap yp limit
    match (make_request (c.http req)).1 with
    | .error e => (.error e, [req])
    | .ok none => (.ok [], [req])
    | .ok (some none) => (.ok [], [req])
    | .ok (some (some items)) => (.ok items, [req])

/-- `parse_scopus_author_names` (crossref_client.py lines 635-656). -/
def parse_scopus_author_names (author_string : String) : List String :=
  ((splitOnChar ';' author_string.toList).map trimL).filterMap
    (fun a => if a.isEmpty then none else some (String.mk a))

/-! ## Confidence scorer (`calculate_match_confidence`, crossref_client.py 413-633)

Scores are exact hundredths of the source's float values; similarity ratios are
exact fractions compared by cross-multiplication (`fracGt f a b` decides
`f.num / f.den > a / b` for the positive denominators the scorer produces). -/

/-- An exact non-negative fraction (a Jaccard similarity). -/
structure SimFrac where
  num : Nat
  den : Nat
deriving DecidableEq

/-- `f > a / b` by cross-multiplication. -/
def fracGt (f : SimFrac) (a b : Nat) : Bool := b * f.num > a * f.den

/-- `f < a / b` by cross-multiplication. -/
def fracLt (f : SimFrac) (a b : Nat) : Bool := b * f.num < a * f.den

/-- Distinct elements of a list, keeping first occurrences (Python `set`, sized). -/
def dedupGo (seen : List String) : List String → List String
  | [] => []
  | x :: xs => if seen.contains x then dedupGo seen xs else x :: dedupGo (x :: seen) xs

/-- Python `set(xs)` as a duplicate-free list. -/
def dedupS (xs : List String) : List String := dedupGo [] xs

/-- `|set a ∩ set b|`. -/
def interCount (a b : List String) : Nat := ((dedupS a).filter (fun x => b.contains x)).length

/-- `|set a ∪ set b|`. -/
def unionCount (a b : List String) : Nat := (dedupS (a ++ b)).length

/-- Result of `_validate_year_match` (crossref_client.py lines 506-522).
The source's `matches` key is called `year_eq` because `matches` is reserved
in Lean. -/
structure YearScore where
  scopus : String
  crossref : Option String
  year_eq : Bool
deriving DecidableEq

/-- `_validate_year_match`: the CrossRef year is `published['date-parts'][0][0]`
stringified when present. -/
def validate_year_match (row : Row) (w : Work) : YearScore :=
  let sy := trimS (rowGet row "Year")
  let cy : Option String :=
    match w.published with
    | (y :: _) :: _ => some (toString y)
    | _ => none
  { scopus := sy, crossref := cy,
    year_eq := sy ≠ "" && (match cy with
                           | some cs => cs ≠ "" && sy = cs
                           | none => false) }

/-- Python truthiness of the `crossref` year field. -/
def crossrefYearTruthy (cy : Option String) : Bool :=
  match cy with
  | some cs => cs ≠ ""
  | none => false

/-- `_validate_title_similarity` (crossref_client.py lines 524-548): token-set
Jaccard similarity of the lowercased titles. -/
def validate_title_similarity (row : Row) (w : Work) : SimFrac :=
  let st := lowerS (trimS (rowGet row "Title"))
  let ct := match w.title with
            | t :: _ => lowerS t
            | [] => ""
  if st = "" || ct = "" then ⟨0, 1⟩
  else
    let sw := (wordsOf st.toList).map String.mk
    let cw := (wordsOf ct.toList).map String.mk
    if sw.isEmpty || cw.isEmpty then ⟨0, 1⟩
    else
      let uni := unionCount sw cw
      if uni = 0 then ⟨0, 1⟩ else ⟨interCount sw cw, uni⟩

/-- Result of `_validate_author_overlap` (with the truncated display lists the
scorer's gate re-reads). -/
structure AuthorScore where
  overlap_frac : SimFrac
  scopus_authors : List String
  crossref_authors : List String
deriving DecidableEq

/-- CrossRef author formatting (crossref_client.py lines 561-570):
`"Family, G."` when a given name is present, else the family name. -/
def formatCrAuthor (a : CrAuthor) : Option String :=
  if a.family = "" then none
  else match a.given.toList with
       | [] => some a.family
       | g :: _ => some (a.family ++ ", " ++ String.mk [g] ++ ".")

/-- Last name of an author string: the part before the first comma, lowercased
(skipped when there is no comma). -/
def lastnameOf (s : String) : Option String :=
  if s.toList.contains ',' then
    some (lowerS (trimS (String.mk (s.toList.takeWhile (fun c => c ≠ ',')))))
  else none

/-- `_validate_author_overlap` (crossref_client.py lines 550-604): Jaccard overlap
of the last-name sets. -/
def validate_author_overlap (row : Row) (w : Work) : AuthorScore :=
  let sa := ((splitOnChar ';' (trimS (rowGet row "Authors")).toList).map trimL).filterMap
    (fun a => if a.isEmpty then none else some (String.mk a))
  let ca := w.author.filterMap formatCrAuthor
  if sa.isEmpty || ca.isEmpty then ⟨⟨0, 1⟩, sa, ca⟩
  else
    let sl := sa.filterMap lastnameOf
    let cl := ca.filterMap lastnameOf
    let total := unionCount sl cl
    ⟨if total = 0 then ⟨0, 1⟩ else ⟨interCount sl cl, total⟩, sa.take 3, ca.take 3⟩

/-- Result of `_validate_publication_details` (crossref_client.py lines 606-622). -/
structure PubScore where
  volume_match : Bool
  volume_available : Bool
  pages_match : Bool
deriving DecidableEq

/-- `_validate_publication_details`: exact volume equality, page containment. -/
def validate_publication_details (row : Row) (w : Work) : PubScore :=
  let sv := trimS (rowGet row "Volume")
  let sp := stripDashS (trimS (rowGet row "Page start") ++ "-" ++ trimS (rowGet row "Page end"))
  let cv := trimS w.volume
  let cp := extract_pages w
  { volume_match := sv ≠ "" && cv ≠ "" && sv = cv,
    volume_available := sv ≠ "" && cv ≠ "",
    pages_match := sp ≠ "" && cp ≠ "" && containsSubS sp cp }

/-- The scorer's output: the final clamped score in hundredths, and the discrete
status bucket. -/
structure ConfidenceResult where
  confidence_centi : Int
  threshold_status : String
deriving DecidableEq

/-- The score as the rational the source's float represents. -/
def ConfidenceResult.confidence_score (r : ConfidenceResult) : ℚ :=
  (r.confidence_centi : ℚ) / 100

/-- `_get_confidence_threshold_status` (crossref_client.py lines 624-633). -/
def get_confidence_threshold_status (c : Int) : String :=
  if c ≥ 90 then "high_confidence"
  else if c ≥ 70 then "medium_confidence"
  else if c ≥ 50 then "low_confidence"
  else "very_low_confidence"

/-- `calculate_match_confidence` (crossref_client.py lines 413-504): method base
plus year / title / author / publication-detail adjustments, clamped to [0, 1]
(here [0, 100] hundredths). -/
def calculate_match_confidence (row : Row) (w : Work) (search_method : String) :
    ConfidenceResult :=
  let base0 : Int :=
    if search_method = "pmid" then 95
    else if search_method = "journal" then 85
    else if search_method = "title" then 70
    else 50
  let ys := validate_year_match row w
  let b1 := if ys.year_eq then base0 + 10
            else if ys.scopus ≠ "" && crossrefYearTruthy ys.crossref then base0 - 30
            else base0 - 10
  let b2 := if search_method ≠ "title" then
              let ts := validate_title_similarity row w
              if fracGt ts 4 5 then b1 + 10
              else if fracLt ts 1 2 then b1 - 20
              else b1
            else b1
  let sc := validate_author_overlap row w
  let b3 := if fracGt sc.overlap_frac 1 2 then b2 + 10
            else if fracLt sc.overlap_frac 1 5 && !sc.scopus_authors.isEmpty &&
                !sc.crossref_authors.isEmpty then b2 - 10
            else b2
  let b4 := if search_method = "journal" then
              let ps := validate_publication_details row w
              if ps.volume_match && ps.pages_match then b3 + 10
              else if !ps.volume_match && ps.volume_available then b3 - 20
              else b3
            else b3
  let fin := max 0 (min 100 b4)
  { confidence_centi := fin, threshold_status := get_confidence_threshold_status fin }

/-- The accept/reject decision of `validate_publication_match`
(crossref_client.py lines 658-694). -/
structure ValidationResult where
  is_valid_match : Bool
  confidence_centi : Int
  threshold_status : String
  doi : String
deriving DecidableEq

/-- `validate_publication_match`: score and compare against the threshold
(also in hundredths). -/
def validate_publication_match (row : Row) (w : Work) (search_method : String)
    (confidence_threshold : Int) : ValidationResult :=
  let cr := calculate_match_confidence row w search_method
  { is_valid_match := cr.confidence_centi ≥ confidence_threshold,
    confidence_centi := cr.confidence_centi,
    threshold_status := cr.threshold_status,
    doi := extract_doi w }

/-! ## DOI recovery pipeline (`data_quality_filter.py`)

The phases model the recovery-enabled configuration (`enable_crossref_recovery`
with an initialized client); the configuration guards, statistics counters and
console prints of the source change no row and are not modelled.  Each phase
returns the (possibly enhanced) row together with the requests it issued; the
source's bare `except Exception` blocks are the `.error` match arms, which return
the row unchanged. -/

/-- Zero-padded 3-digit string. -/
def pad3 (k : Nat) : String :=
  if k < 10 then "00" ++ toString k
  else if k < 100 then "0" ++ toString k
  else toString k

/-- `f"{score:.3f}"` for a score held in hundredths (exact: every score is a
multiple of 0.01, so three decimals lose nothing). -/
def centiToConfStr (c : Int) : String :=
  toString (c.toNat / 100) ++ "." ++ pad3 (c.toNat % 100 * 10)

/-- The enhanced row built on a successful recovery: `DOI`, `_recovery_method` and
`_recovery_confidence` are set (data_quality_filter.py lines 160-163 etc.). -/
def recovery_enhance (row : Row) (v : ValidationResult) (methodName : String) : Row :=
  rowSet (rowSet (rowSet row "DOI" v.doi) "_recovery_method" methodName)
    "_recovery_confidence" (centiToConfStr v.confidence_centi)

/-- `_attempt_phase1_pubmed_recovery` (data_quality_filter.py lines 138-175):
PubMed-ID lookup, validated at threshold 0.80. -/
def attempt_phase1_pubmed_recovery (c : CrossRefClient) (row : Row) : Row × List Request :=
  let pm := trimS (rowGet row "PubMed ID")
  if pm = "" then (row, [])
  else
    match search_by_pmid c pm with
    | (.error _, log) => (row, log)
    | (.ok none, log) => (row, log)
    | (.ok (some w), log) =>
      let v := validate_publication_match row w "pmid" 80
      if v.is_valid_match then (recovery_enhance row v "Phase1_PubMed", log) else (row, log)

/-- `_attempt_phase2a_journal_recovery` (data_quality_filter.py lines 177-226):
journal-details search, validated at threshold 0.75; requires a source title and
a volume or year. -/
def attempt_phase2a_journal_recovery (c : CrossRefClient) (row : Row) : Row × List Request :=
  let st := trimS (rowGet row "Source title")
  let vol := trimS (rowGet row "Volume")
  let yr := trimS (rowGet row "Year")
  if st = "" || (vol = "" && yr = "") then (row, [])
  else
    let iss := trimS (rowGet row "Issue")
    let ps := trimS (rowGet row "Page start")
    let pe := trimS (rowGet row "Page end")
    match search_by_journal_details c st
        (if vol ≠ "" then some vol else none)
        (if iss ≠ "" then some iss else none)
        (if ps ≠ "" then some (stripDashS (ps ++ "-" ++ pe)) else none)
        (if yr ≠ "" then some yr else none) with
    | (.error _, log) => (row, log)
    | (.ok none, log) => (row, log)
    | (.ok (some w), log) =>
      let v := validate_publication_match row w "journal" 75
      if v.is_valid_match then (recovery_enhance row v "Phase2a_Journal", log) else (row, log)

/-- The best-of-results fold of phase 2b (data_quality_filter.py lines 259-272):
keep the valid match with the strictly highest confidence (ties keep the earlier,
and the first valid match must beat the initial 0.0). -/
def bestTitleMatch (row : Row) (results : List Work) : Option ValidationResult :=
  results.foldl
    (fun acc r =>
      let v := validate_publication_match row r "title" 65
      match acc with
      | none => if v.is_valid_match && v.confidence_centi > 0 then some v else none
      | some b => if v.is_valid_match && v.confidence_centi > b.confidence_centi then some v
                  else some b)
    none

/-- `_attempt_phase2b_title_recovery` (data_quality_filter.py lines 228-289):
title search (first author and year as hints), validated at threshold 0.65;
requires a title of length at least 10. -/
def attempt_phase2b_title_recovery (c : CrossRefClient) (row : Row) : Row × List Request :=
  let title := trimS (rowGet row "Title")
  let yr := trimS (rowGet row "Year")
  if title = "" || title.length < 10 then (row, [])
  else
    let authors_str := trimS (rowGet row "Authors")
    let first_author := if authors_str ≠ "" then (parse_scopus_author_names authors_str).head?
                        else none
    match search_by_title c title first_author (some yr) 3 with
    | (.error _, log) => (row, log)
    | (.ok results, log) =>
      if results.isEmpty then (row, log)
      else
        match bestTitleMatch row results with
        | some b => (recovery_enhance row b "Phase2b_Title", log)
        | none => (row, log)

/-- `_attempt_crossref_recovery` (data_quality_filter.py lines 100-136): the three
phases in order, stopping at the first row whose `DOI` is non-blank; the original
row is returned when no phase recovers. -/
def attempt_crossref_recovery (c : CrossRefClient) (row : Row) : Row × List Request :=
  let p1 := attempt_phase1_pubmed_recovery c row
  if trimS (rowGet p1.1 "DOI") ≠ "" then p1
  else
    let p2 := attempt_phase2a_journal_recovery c row
    if trimS (rowGet p2.1 "DOI") ≠ "" then (p2.1, p1.2 ++ p2.2)
    else
      let p3 := attempt_phase2b_title_recovery c row
      if trimS (rowGet p3.1 "DOI") ≠ "" then (p3.1, p1.2 ++ p2.2 ++ p3.2)
      else (row, p1.2 ++ p2.2 ++ p3.2)

/-- `should_exclude_record` (data_quality_filter.py lines 318-382), filtering
enabled: excluded iff any of the seven critical fields is blank (the reason
string only feeds reports and is omitted). -/
def should_exclude_record (row : Row) : Bool :=
  trimS (rowGet row "Authors") = "" ||
  trimS (rowGet row "Author(s) ID") = "" ||
  trimS (rowGet row "Title") = "" ||
  trimS (rowGet row "Year") = "" ||
  trimS (rowGet row "DOI") = "" ||
  trimS (rowGet row "Affiliations") = "" ||
  trimS (rowGet row "Abstract") = ""

/-- The row loop of `filter_csv_data` (data_quality_filter.py lines 411-440) with
recovery enabled: every row goes through `attempt_crossref_recovery`, then through
the quality check; included rows and the concatenated request log are returned
(exclusion logging and report generation are omitted). -/
def filter_csv_data (c : CrossRefClient) (rows : List Row) : List Row × List Request :=
  rows.foldl
    (fun acc row =>
      let rec' := attempt_crossref_recovery c row
      if should_exclude_record rec'.1 then (acc.1, acc.2 ++ rec'.2)
      else (acc.1 ++ [rec'.1], acc.2 ++ rec'.2))
    ([], [])

/-! ## Concrete instances used by closed theorems and witnesses -/

/-- An oracle whose every request 404s (CrossRef finds nothing). -/
def clientNotFound : CrossRefClient := ⟨fun _ _ => .httpError 404⟩

/-- An oracle whose every request is rejected with HTTP 401 (bad credentials). -/
def clientAuthReject : CrossRefClient := ⟨fun _ _ => .httpError 401⟩

/-- A record whose DOI is already populated and which carries a PubMed ID. -/
def rowWithDoiAndPmid : Row := [("DOI", "10.1234/already"), ("PubMed ID", "999")]

/-- A minimal record carrying only a PubMed ID. -/
def rowPmidOnly1 : Row := [("PubMed ID", "11")]

/-- A second minimal record carrying only a PubMed ID. -/
def rowPmidOnly2 : Row := [("PubMed ID", "22")]

/-- A CrossRef work matching `rowBothPhases` on year, title, authors, volume, pages. -/
def workMatch : Work :=
  { doi := "10.1/x"
    title := ["Alpha beta gamma delta"]
    author := [{ family := "Smith", given := "J" }]
    published := [[2020]]
    volume := "5"
    page := "1-9"
    page_first := ""
    page_last := "" }

/-- An oracle that returns `workMatch` for both ID lookups and journal searches. -/
def clientBothPhases : CrossRefClient :=
  ⟨fun req _ =>
    match req with
    | .pmid _ => .success (some [workMatch])
    | .journalSearch _ _ => .success (some [workMatch])
    | .titleSearch _ _ _ _ => .success (some [])⟩

/-- A record that would be accepted by both the PubMed phase and the journal phase
against `clientBothPhases`. -/
def rowBothPhases : Row :=
  [("PubMed ID", "7"), ("Source title", "Nature"), ("Volume", "5"), ("Year", "2020"),
   ("Title", "Alpha beta gamma delta"), ("Authors", "Smith, J."),
   ("Page start", "1"), ("Page end", "9")]

/-- An attempt stream whose first attempt is a transport error and whose retries
(which the source never performs) would all succeed. -/
def retryWouldSucceed : Nat → HttpOutcome :=
  fun n => if n = 0 then HttpOutcome.urlError else HttpOutcome.success (some [workMatch])

/-! ## Row lemmas -/

theorem rowGet_rowSet_self (r : Row) (k v : String) : rowGet (rowSet r k v) k = v := by
  induction r with
  | nil => simp [rowSet, rowGet]
  | cons p rest ih =>
    obtain ⟨k', v'⟩ := p
    by_cases hk : k' = k
    · simp [rowSet, rowGet, hk]
    · simp [rowSet, rowGet, hk, ih]

theorem rowGet_rowSet_ne (r : Row) (k v k'' : String) (hne : k'' ≠ k) :
    rowGet (rowSet r k v) k'' = rowGet r k'' := by
  induction r with
  | nil => simp [rowSet, rowGet, Ne.symm hne]
  | cons p rest ih =>
    obtain ⟨k', v'⟩ := p
    by_cases hk : k' = k
    · subst hk
      simp [rowSet, rowGet, Ne.symm hne, ih]
    · simp [rowSet, rowGet, hk, ih]

theorem rowGet_enhance_other (row : Row) (v : ValidationResult) (m k : String)
    (h1 : k ≠ "DOI") (h2 : k ≠ "_recovery_method") (h3 : k ≠ "_recovery_confidence") :
    rowGet (recovery_enhance row v m) k = rowGet row k := by
  unfold recovery_enhance
  rw [rowGet_rowSet_ne _ _ _ _ h3, rowGet_rowSet_ne _ _ _ _ h2, rowGet_rowSet_ne _ _ _ _ h1]

theorem rowGet_enhance_method (row : Row) (v : ValidationResult) (m : String) :
    rowGet (recovery_enhance row v m) "_recovery_method" = m := by
  unfold recovery_enhance
  rw [rowGet_rowSet_ne _ _ _ _ (by decide), rowGet_rowSet_self]

/-! ## Phase shape lemmas: each phase returns the row unchanged or an enhanced row -/

theorem phase1_cases (c : CrossRefClient) (row : Row) :
    (attempt_phase1_pubmed_recovery c row).1 = row ∨
    ∃ v, (attempt_phase1_pubmed_recovery c row).1 = recovery_enhance row v "Phase1_PubMed" := by
  simp only [attempt_phase1_pubmed_recovery]
  split
  · exact Or.inl rfl
  · split
    · exact Or.inl rfl
    · exact Or.inl rfl
    · split
      · exact Or.inr ⟨_, rfl⟩
      · exact Or.inl rfl

theorem phase2a_cases (c : CrossRefClient) (row : Row) :
    (attempt_phase2a_journal_recovery c row).1 = row ∨
    ∃ v, (attempt_phase2a_journal_recovery c row).1 = recovery_enhance row v "Phase2a_Journal" := by
  simp only [attempt_phase2a_journal_recovery]
  split
  · exact Or.inl rfl
  · split
    · exact Or.inl rfl
    · exact Or.inl rfl
    · split
      · exact Or.inr ⟨_, rfl⟩
      · exact Or.inl rfl

theorem phase2b_cases (c : CrossRefClient) (row : Row) :
    (attempt_phase2b_title_recovery c row).1 = row ∨
    ∃ v, (attempt_phase2b_title_recovery c row).1 = recovery_enhance row v "Phase2b_Title" := by
  simp only [attempt_phase2b_title_recovery]
  split
  · exact Or.inl rfl
  · split
    · exact Or.inl rfl
    · split
      · exact Or.inl rfl
      · split
        · exact Or.inr ⟨_, rfl⟩
        · exact Or.inl rfl

theorem phase1_frame (c : CrossRefClient) (row : Row) (k : String)
    (h1 : k ≠ "DOI") (h2 : k ≠ "_recovery_method") (h3 : k ≠ "_recovery_confidence") :
    rowGet (attempt_phase1_pubmed_recovery c row).1 k = rowGet row k := by
  rcases phase1_cases c row with h | ⟨v, h⟩
  · rw [h]
  · rw [h, rowGet_enhance_other _ _ _ _ h1 h2 h3]

theorem phase2a_frame (c : CrossRefClient) (row : Row) (k : String)
    (h1 : k ≠ "DOI") (h2 : k ≠ "_recovery_method") (h3 : k ≠ "_recovery_confidence") :
    rowGet (attempt_phase2a_journal_recovery c row).1 k = rowGet row k := by
  rcases phase2a_cases c row with h | ⟨v, h⟩
  · rw [h]
  · rw [h, rowGet_enhance_other _ _ _ _ h1 h2 h3]

theorem phase2b_frame (c : CrossRefClient) (row : Row) (k : String)
    (h1 : k ≠ "DOI") (h2 : k ≠ "_recovery_method") (h3 : k ≠ "_recovery_confidence") :
    rowGet (attempt_phase2b_title_recovery c row).1 k = rowGet row k := by
  rcases phase2b_cases c row with h | ⟨v, h⟩
  · rw [h]
  · rw [h, rowGet_enhance_other _ _ _ _ h1 h2 h3]

/-! ## Claim theorems: recovery pipeline and client -/

/-- C1.  The claim says a record whose DOI is already populated causes zero network
calls.  The code has no such guard: `filter_csv_data` runs
`_attempt_crossref_recovery` on every row, and phase 1 calls `search_by_pmid`
whenever a PubMed ID is present — here on a record whose DOI field is non-blank
(the code's own description, "recover missing DOI" / "Only runs on records that
would otherwise be excluded", says otherwise, so this is a bug in the code). -/
theorem c1_recovery_calls_network_despite_doi :
    trimS (rowGet rowWithDoiAndPmid "DOI") ≠ "" ∧
    attempt_crossref_recovery clientNotFound rowWithDoiAndPmid =
      (rowWithDoiAndPmid, [Request.pmid "999"]) := by
  constructor
  · decide
  · rfl

/-- C2.  For every record, candidate work and search method (known or unknown),
the confidence score returned by `calculate_match_confidence` lies in [0, 1]:
the sum of the base and the stacked adjustments is clamped. -/
theorem c2_confidence_score_bounded (row : Row) (w : Work) (m : String) :
    0 ≤ (calculate_match_confidence row w m).confidence_score ∧
    (calculate_match_confidence row w m).confidence_score ≤ 1 := by
  have hc : 0 ≤ (calculate_match_confidence row w m).confidence_centi ∧
      (calculate_match_confidence row w m).confidence_centi ≤ 100 := by
    simp only [calculate_match_confidence]
    exact ⟨le_max_left 0 _, max_le (by norm_num) (min_le_left _ _)⟩
  unfold ConfidenceResult.confidence_score
  constructor
  · exact div_nonneg (by exact_mod_cast hc.1) (by norm_num)
  · rw [div_le_one (by norm_num)]
    exact_mod_cast hc.2

/-- C3 counterexample.  On HTTP 401 the client raises `CrossRefAPIError` (second
conjunct), but the batch loop of `filter_csv_data` is not halted and nothing is
surfaced: the failure is absorbed per record — the second record's lookup is still
issued after the first record's 401, and the loop returns an ordinary value. -/
theorem c3_auth_failure_absorbed_counterexample :
    filter_csv_data clientAuthReject [rowPmidOnly1, rowPmidOnly2] =
      ([], [Request.pmid "11", Request.pmid "22"]) ∧
    (make_request (clientAuthReject.http (Request.pmid "11"))).1 =
      .error (.httpError 401) := by
  exact ⟨rfl, rfl⟩

/-- C3 amended.  When the PubMed lookup raises any `CrossRefAPIError` (as a 401
does), phase 1 catches it and returns the record unchanged — the error is treated
exactly like a per-record miss and batch processing continues. -/
theorem c3_amended_api_error_treated_as_miss (c : CrossRefClient) (row : Row)
    (e : CrossRefAPIError)
    (h : (search_by_pmid c (trimS (rowGet row "PubMed ID"))).1 = .error e) :
    attempt_phase1_pubmed_recovery c row =
      (row, (search_by_pmid c (trimS (rowGet row "PubMed ID"))).2) := by
  simp only [attempt_phase1_pubmed_recovery]
  by_cases hpm : trimS (rowGet row "PubMed ID") = ""
  · rw [if_pos hpm, hpm]
    rfl
  · rw [if_neg hpm]
    rcases hs : search_by_pmid c (trimS (rowGet row "PubMed ID")) with ⟨res, log⟩
    rw [hs] at h
    simp only at h
    subst h
    rfl

/-- Witness for the C3 amended theorem at a concrete 401 oracle and record. -/
theorem c3_amended_api_error_treated_as_miss_witness :
    attempt_phase1_pubmed_recovery clientAuthReject rowPmidOnly1 =
      (rowPmidOnly1, (search_by_pmid clientAuthReject
        (trimS (rowGet rowPmidOnly1 "PubMed ID"))).2) :=
  c3_amended_api_error_treated_as_miss clientAuthReject rowPmidOnly1
    (.httpError 401) rfl

/-- C6 counterexample.  The claim says transport errors are retried with backoff
before yielding null.  The client performs exactly one attempt: on a stream whose
first attempt is a transport error and whose second attempt would succeed, it
returns `None` having consumed one attempt — a single retry would have returned
the work, so no retry bound ≥ 1 is ever exercised. -/
theorem c6_no_retry_counterexample :
    make_request retryWouldSucceed = (.ok none, 1) ∧
    retryWouldSucceed 1 = .success (some [workMatch]) := by
  exact ⟨rfl, rfl⟩

/-- C6 amended.  On a network/transport error the client returns null immediately
from the single attempt, without retrying, and propagates no exception. -/
theorem c6_amended_transport_error_immediate_none (attempts : Nat → HttpOutcome)
    (h : attempts 0 = .urlError) : make_request attempts = (.ok none, 1) := by
  simp [make_request, h]

/-- Witness for the C6 amended theorem at a concrete always-failing stream. -/
theorem c6_amended_transport_error_immediate_none_witness :
    make_request (fun _ => HttpOutcome.urlError) = (.ok none, 1) :=
  c6_amended_transport_error_immediate_none (fun _ => HttpOutcome.urlError) rfl

/-- C8.  If phase 1 (PubMed ID lookup) accepts a match with a usable DOI — the
phase changed the row and left a non-blank DOI — then whatever phase 2a would have
done (here it also accepts), the pipeline's recorded method is `Phase1_PubMed`:
phases run in fixed order and stop at the first accepted match. -/
theorem c8_phase1_wins_over_phase2a (c : CrossRefClient) (row : Row)
    (h1 : (attempt_phase1_pubmed_recovery c row).1 ≠ row)
    (h1d : trimS (rowGet (attempt_phase1_pubmed_recovery c row).1 "DOI") ≠ "")
    (h2 : (attempt_phase2a_journal_recovery c row).1 ≠ row)
    (h2d : trimS (rowGet (attempt_phase2a_journal_recovery c row).1 "DOI") ≠ "") :
    rowGet (attempt_crossref_recovery c row).1 "_recovery_method" = "Phase1_PubMed" := by
  rcases phase1_cases c row with h | ⟨v, hv⟩
  · exact absurd h h1
  · simp only [attempt_crossref_recovery]
    rw [if_pos h1d, hv, rowGet_enhance_method]

/-- Witness for C8 at a concrete client and record accepted by both phases. -/
theorem c8_phase1_wins_over_phase2a_witness :
    rowGet (attempt_crossref_recovery clientBothPhases rowBothPhases).1
      "_recovery_method" = "Phase1_PubMed" :=
  c8_phase1_wins_over_phase2a clientBothPhases rowBothPhases
    (by decide) (by decide) (by decide) (by decide)

/-- C10.  The recovery pipeline only ever touches the keys `DOI`,
`_recovery_method` and `_recovery_confidence` (first conjunct), and when no phase
produces an accepted match — each phase hands back its input row — the pipeline
returns the input row exactly (second conjunct). -/
theorem c10_recovery_frame (c : CrossRefClient) (row : Row) :
    (∀ k : String, k ≠ "DOI" → k ≠ "_recovery_method" → k ≠ "_recovery_confidence" →
      rowGet (attempt_crossref_recovery c row).1 k = rowGet row k) ∧
    ((attempt_phase1_pubmed_recovery c row).1 = row →
      (attempt_phase2a_journal_recovery c row).1 = row →
      (attempt_phase2b_title_recovery c row).1 = row →
      (attempt_crossref_recovery c row).1 = row) := by
  constructor
  · intro k h1 h2 h3
    simp only [attempt_crossref_recovery]
    split
    · exact phase1_frame c row k h1 h2 h3
    · split
      · exact phase2a_frame c row k h1 h2 h3
      · split
        · exact phase2b_frame c row k h1 h2 h3
        · rfl
  · intro e1 e2 e3
    simp only [attempt_crossref_recovery]
    split
    · exact e1
    · split
      · exact e2
      · split
        · exact e3
        · rfl

/-- Witness for C10: the frame part on a recovering record (the `Title` key is
untouched), and the identity part on a record every phase declines. -/
theorem c10_recovery_frame_witness :
    rowGet (attempt_crossref_recovery clientBothPhases rowBothPhases).1 "Title" =
      rowGet rowBothPhases "Title" ∧
    (attempt_crossref_recovery clientAuthReject rowPmidOnly1).1 = rowPmidOnly1 :=
  ⟨(c10_recovery_frame clientBothPhases rowBothPhases).1 "Title"
      (by decide) (by decide) (by decide),
   (c10_recovery_frame clientAuthReject rowPmidOnly1).2 (by decide) (by decide) (by decide)⟩

/-! ## Claim theorems: reference parser scenarios -/

/-- C7.  The worked scenario: the comma-decomposition path resolves `Nature` as the
journal at index 2 and distributes the remaining parts to volume, issue and
pages, with the parenthesized year stripped. -/
theorem c7_scenario_smith_reference :
    parse_single_reference "Smith J, A study of X, Nature, 45, 2, pp. 100-110, (2020)" =
      some { authors := some "Smith J", title := some "A study of X",
             journal := some "Nature", volume := some "45", issue := some "2",
             pages := some "100-110", year := some 2020 } := by
  decide

/-- C4 counterexample.  A parenthesized 4-digit number at the end is extracted as
the year with no range check: 1234 lies outside [1900, 2099] yet is extracted
(the [1900, 2099] shape belongs only to the bare-token fallback regex). -/
theorem c4_paren_year_range_counterexample :
    parse_single_reference "Author A, Title of work, (1234)" =
      some { authors := some "Author A", title := some "Title of work",
             journal := some "Book/Monograph", year := some 1234 } ∧
    ¬ (1900 ≤ 1234 ∧ 1234 ≤ 2099) := by
  exact ⟨by decide, by decide⟩

/-- C5 counterexample.  The web-document short-circuit returns its fields without
the final normalization: on the bare marker the title is the empty string, which
the claim says can never appear. -/
theorem c5_empty_title_counterexample :
    parse_single_reference "[WWW Document]" =
      some { title := some "", journal := some "Web Document" } := by
  decide

/-! ## The parenthesized-year extraction accepts any four digits (claim C4) -/

theorem parenMatchHere_long_rparen (X : List Char) (h : 5 < X.length) :
    parenMatchHere (X ++ [')']) = false := by
  have hws : (')' : Char).isWhitespace = false := by decide
  rcases X with _ | ⟨x0, X⟩
  · simp at h
  rcases X with _ | ⟨x1, X⟩
  · simp at h
  rcases X with _ | ⟨x2, X⟩
  · simp at h
  rcases X with _ | ⟨x3, X⟩
  · simp at h
  rcases X with _ | ⟨x4, X⟩
  · simp at h
  rcases X with _ | ⟨x5, X⟩
  · simp at h
  simp [parenMatchHere, List.all_append, hws]

theorem parenYearGo_append (d1 d2 d3 d4 : Char)
    (h1 : d1.isDigit = true) (h2 : d2.isDigit = true)
    (h3 : d3.isDigit = true) (h4 : d4.isDigit = true) :
    ∀ (pre acc : List Char),
      parenYearGo acc (pre ++ ['(', d1, d2, d3, d4, ')']) =
        some (digits4 d1 d2 d3 d4, acc.reverse ++ pre) := by
  intro pre
  induction pre with
  | nil =>
    intro acc
    simp [parenYearGo, parenMatchHere, parenDigitsHere, h1, h2, h3, h4]
  | cons p pre' ih =>
    intro acc
    have hm : parenMatchHere (p :: (pre' ++ ['(', d1, d2, d3, d4, ')'])) = false := by
      have he : p :: (pre' ++ ['(', d1, d2, d3, d4, ')']) =
          (p :: (pre' ++ ['(', d1, d2, d3, d4])) ++ [')'] := by simp
      rw [he]
      apply parenMatchHere_long_rparen
      simp
    simp [parenYearGo, hm, ih (p :: acc)]

/-- C4 amended.  The parser's parenthesized-year extraction accepts any 4-digit
number at the string's end — there is no [1900, 2099] restriction — extracting it
as the year and stripping it together with surrounding whitespace and a trailing
comma; the range restriction belongs only to the bare-token fallback. -/
theorem c4_amended_any_four_digit_paren_year (pre : List Char) (d1 d2 d3 d4 : Char)
    (h1 : d1.isDigit = true) (h2 : d2.isDigit = true)
    (h3 : d3.isDigit = true) (h4 : d4.isDigit = true) :
    extract_year (pre ++ ['(', d1, d2, d3, d4, ')']) =
      (some (digits4 d1 d2 d3 d4), trimL (rstripCommaL (trimL pre))) := by
  unfold extract_year
  rw [parenYearGo_append d1 d2 d3 d4 h1 h2 h3 h4 pre []]
  simp

/-- Witness for the C4 amended theorem on a concrete reference prefix and the
out-of-range digits 1234. -/
theorem c4_amended_any_four_digit_paren_year_witness :
    ('1' : Char).isDigit = true ∧
    extract_year ("Author A, Title of work, ".toList ++ ['(', '1', '2', '3', '4', ')']) =
      (some 1234, "Author A, Title of work".toList) := by
  refine ⟨by decide, ?_⟩
  rw [c4_amended_any_four_digit_paren_year "Author A, Title of work, ".toList '1' '2' '3' '4'
    (by decide) (by decide) (by decide) (by decide)]
  decide

/-! ## The final cleanup normalizes populated fields (claim C5) -/

theorem splitOnPred_chars (p : Char → Bool) :
    ∀ (cs : List Char), ∀ w ∈ splitOnPred p cs, ∀ c ∈ w, p c = false := by
  intro cs
  induction cs with
  | nil =>
    intro w hw
    simp [splitOnPred] at hw
    simp [hw]
  | cons c rest ih =>
    intro w hw c' hc'
    simp only [splitOnPred] at hw
    by_cases hpc : p c
    · rw [if_pos hpc] at hw
      rcases List.mem_cons.1 hw with h | h
      · subst h; simp at hc'
      · exact ih w h c' hc'
    · rw [if_neg hpc] at hw
      rcases hsp : splitOnPred p rest with _ | ⟨h0, t⟩
      · rw [hsp] at hw
        simp at hw
        subst hw
        simp at hc'
        subst hc'
        simpa using hpc
      · rw [hsp] at hw
        rcases List.mem_cons.1 hw with h | h
        · subst h
          rcases List.mem_cons.1 hc' with h' | h'
          · subst h'; simpa using hpc
          · exact ih h0 (by rw [hsp]; exact List.mem_cons_self _ _) c' h'
        · exact ih w (by rw [hsp]; exact List.mem_cons_of_mem _ h) c' hc'

theorem wordsOf_ne_nil (cs : List Char) : ∀ w ∈ wordsOf cs, w ≠ [] := by
  intro w hw
  have := (List.mem_filter.1 hw).2
  simpa using this

theorem wordsOf_no_space (cs : List Char) : ∀ w ∈ wordsOf cs, ∀ c ∈ w, c ≠ ' ' := by
  intro w hw c hc hcs
  have hmem : w ∈ splitOnPred Char.isWhitespace cs := (List.mem_filter.1 hw).1
  have := splitOnPred_chars Char.isWhitespace cs w hmem c hc
  rw [hcs] at this
  simp at this

/-- The no-two-adjacent-spaces property as a chain relation. -/
def noTwoSpaces (a b : Char) : Prop := ¬(a = ' ' ∧ b = ' ')

theorem hasDoubleSpace_eq_false_iff_chain :
    ∀ cs : List Char, hasDoubleSpace cs = false ↔ List.Chain' noTwoSpaces cs := by
  intro cs
  match cs with
  | [] => simp [hasDoubleSpace]
  | [a] => simp [hasDoubleSpace]
  | a :: b :: t =>
    rw [List.chain'_cons, ← hasDoubleSpace_eq_false_iff_chain (b :: t)]
    simp only [hasDoubleSpace, Bool.or_eq_false_iff, Bool.and_eq_false_iff]
    constructor
    · rintro ⟨h1, h2⟩
      refine ⟨?_, h2⟩
      rintro ⟨ha, hb⟩
      rcases h1 with h | h <;> simp [ha, hb] at h
    · rintro ⟨h1, h2⟩
      refine ⟨?_, h2⟩
      by_cases ha : a = ' '
      · by_cases hb : b = ' '
        · exact absurd ⟨ha, hb⟩ h1
        · right; simpa using hb
      · left; simpa using ha

theorem chain'_of_no_space (cs : List Char) (h : ∀ c ∈ cs, c ≠ ' ') :
    List.Chain' noTwoSpaces cs := by
  match cs with
  | [] => simp
  | [a] => simp
  | a :: b :: t =>
    rw [List.chain'_cons]
    refine ⟨fun hab => h a (by simp) hab.1, ?_⟩
    exact chain'_of_no_space (b :: t) (fun c hc => h c (List.mem_cons_of_mem _ hc))

theorem chain'_joinWith (ws : List (List Char))
    (hne : ∀ w ∈ ws, w ≠ []) (hns : ∀ w ∈ ws, ∀ c ∈ w, c ≠ ' ') :
    List.Chain' noTwoSpaces (joinWith [' '] ws) := by
  match ws with
  | [] => simp [joinWith]
  | [w] =>
    simp only [joinWith]
    exact chain'_of_no_space w (hns w (by simp))
  | w :: w' :: ws' =>
    show List.Chain' noTwoSpaces (w ++ [' '] ++ joinWith [' '] (w' :: ws'))
    rw [List.append_assoc, List.chain'_append]
    refine ⟨chain'_of_no_space w (hns w (by simp)), ?_, ?_⟩
    · rw [List.chain'_append]
      refine ⟨by simp, ?_, ?_⟩
      · exact chain'_joinWith (w' :: ws')
          (fun u hu => hne u (List.mem_cons_of_mem _ hu))
          (fun u hu => hns u (List.mem_cons_of_mem _ hu))
      · intro x hx y hy
        simp at hx
        subst hx
        have hjoin : (joinWith [' '] (w' :: ws')).head? = w'.head? := by
          match ws' with
          | [] => simp [joinWith]
          | u :: us =>
            show (w' ++ [' '] ++ joinWith [' '] (u :: us)).head? = w'.head?
            rw [List.append_assoc, List.head?_append_of_ne_nil _ (hne w' (by simp))]
        rw [hjoin] at hy
        have hyw : y ∈ w' := List.mem_of_mem_head? hy
        intro hcon
        exact hns w' (by simp) y hyw hcon.2
    · intro x hx y hy
      simp at hy
      subst hy
      obtain ⟨hwn, rfl⟩ := List.mem_getLast?_eq_getLast hx
      intro hcon
      exact hns w (by simp) _ (List.getLast_mem hwn) hcon.1

theorem normalizeWsL_no_double (cs : List Char) : hasDoubleSpace (normalizeWsL cs) = false := by
  rw [hasDoubleSpace_eq_false_iff_chain]
  exact chain'_joinWith (wordsOf cs) (wordsOf_ne_nil cs) (wordsOf_no_space cs)

/-- C5 amended.  The parser's final cleanup step maps every field that is not the
empty string to either null or a non-empty, whitespace-normalized string (no
internal run of more than one space).  The claimed invariant holds only there:
the short-circuit return paths bypass `cleanField`, and a field that is already
the empty string (possible even on the main path, e.g. `pages` from a bare
`"pp."` part) passes through unchanged. -/
theorem c5_amended_cleanup_normalizes (o : Option String) (h : o ≠ some "") :
    cleanField o = none ∨ ∃ w, cleanField o = some w ∧ NormalizedField w := by
  match o with
  | none => exact Or.inl rfl
  | some v =>
    have hv : v ≠ "" := fun hv => h (by rw [hv])
    rw [cleanField, if_pos hv]
    by_cases hn : normalizeWsS v = ""
    · rw [if_pos hn]
      exact Or.inl rfl
    · rw [if_neg hn]
      refine Or.inr ⟨normalizeWsS v, rfl, hn, ?_⟩
      show hasDoubleSpace (String.mk (normalizeWsL v.toList)).toList = false
      exact normalizeWsL_no_double v.toList

/-- Witness for the C5 amended theorem on a field with an internal double space. -/
theorem c5_amended_cleanup_normalizes_witness :
    (some "a  b" : Option String) ≠ some "" ∧
    (cleanField (some "a  b") = none ∨
      ∃ w, cleanField (some "a  b") = some w ∧ NormalizedField w) :=
  ⟨by decide, c5_amended_cleanup_normalizes (some "a  b") (by decide)⟩

/-! ## Totality of the parser (claim C9)

The subscript guards of the source are sufficient: every `parts[i]` the parser
evaluates is in bounds, so the embedded parser never returns `none`. -/

theorem patternScan_lt (parts : List (List Char)) (j : Nat)
    (h : patternScan parts = some j) : j < parts.length := by
  have hmem := List.mem_of_find?_eq_some h
  rw [List.mem_range'_1] at hmem
  omega

theorem positionalScan_lt (parts : List (List Char)) (j : Nat)
    (h : positionalScan parts = some j) : j < parts.length := by
  have hmem := List.mem_of_find?_eq_some h
  rw [List.mem_range'_1] at hmem
  omega

theorem journalBranch_isSome (parts : List (List Char)) (j : Nat) (yr : Option Nat)
    (h0 : 0 < parts.length) (hj : j < parts.length) :
    (journalBranch parts j yr).isSome = true := by
  unfold journalBranch
  rw [List.getElem?_eq_getElem h0, List.getElem?_eq_getElem hj]
  rfl

theorem fallbackBranch_isSome (parts : List (List Char)) (yr : Option Nat)
    (h : 2 ≤ parts.length) : (fallbackBranch parts yr).isSome = true := by
  unfold fallbackBranch
  by_cases h3 : parts.length ≥ 3
  · rw [if_pos h3, List.getElem?_eq_getElem (by omega), List.getElem?_eq_getElem (by omega),
      List.getElem?_eq_getElem (by omega)]
    rfl
  · rw [if_neg h3]
    have h2 : parts.length = 2 := by omega
    rw [if_pos h2, List.getElem?_eq_getElem (by omega), List.getElem?_eq_getElem (by omega)]
    rfl

theorem standardsBranch_isSome (parts : List (List Char)) (yr : Option Nat)
    (h : 2 ≤ parts.length) : (standardsBranch parts yr).isSome = true := by
  unfold standardsBranch
  have hne : parts ≠ [] := by
    intro hnil
    rw [hnil] at h
    simp at h
  obtain ⟨a, ha⟩ := Option.isSome_iff_exists.1 (List.getLast?_isSome.2 hne)
  simp [show parts.length > 1 by omega, show parts.length ≥ 2 by omega, ha]

theorem comma_decomposition_isSome (r2 : List Char) (yr : Option Nat) :
    (comma_decomposition r2 yr).isSome = true := by
  simp only [comma_decomposition]
  generalize split_ref_parts r2 = parts
  split
  · rfl
  · split
    · next hlen _ => exact standardsBranch_isSome parts yr (by omega)
    · next hlen _ =>
      rw [Option.isSome_map']
      rcases hp : patternScan parts with _ | j
      · simp only [Option.orElse]
        rcases hq : positionalScan parts with _ | j
        · exact fallbackBranch_isSome parts yr (by omega)
        · show (if j ≥ 2 then journalBranch parts j yr else fallbackBranch parts yr).isSome = true
          split
          · exact journalBranch_isSome parts j yr (by omega) (positionalScan_lt parts j hq)
          · exact fallbackBranch_isSome parts yr (by omega)
      · simp only [Option.orElse]
        show (if j ≥ 2 then journalBranch parts j yr else fallbackBranch parts yr).isSome = true
        split
        · exact journalBranch_isSome parts j yr (by omega) (patternScan_lt parts j hp)
        · exact fallbackBranch_isSome parts yr (by omega)

/-- C9.  The reference parser is a total function: for every input string —
including the empty string, single characters and punctuation-only strings — it
returns a well-formed `ParsedReference` record; no subscript of the source can
raise, so the embedded parser never returns `none`. -/
theorem c9_parse_single_reference_total (s : String) :
    (parse_single_reference s).isSome = true := by
  simp only [parse_single_reference]
  split
  · rfl
  · split
    · split
      · rfl
      · split
        · rfl
        · rfl
    · split
      · split
        · rfl
        · split
          · split
            · rfl
            · split
              · rfl
              · rfl
          · exact comma_decomposition_isSome _ _
      · split
        · rfl
        · split
          · split
            · rfl
            · split
              · rfl
              · rfl
          · exact comma_decomposition_isSome _ _
